import Mathlib

/-!
Shallow embedding of the OAuth2 device-flow client in
src/GDataOauth2Client.py (classes OAuth2DeviceClient and OAuth2Token).

Modelling conventions:
- The pycurl transport is abstracted: every network operation is passed an
  `HttpResult`, either `transportError errstr` (pycurl.error, caught by the
  code) or `response code body`, where `body = none` models a response body
  that is not well-formed JSON (json.loads raises, uncaught by the code).
- A parsed JSON body is modelled as `JsonBody`, a record of the optional
  fields the code consumes; `none` for a field means the key is absent and
  the dict access raises KeyError.
- Python exceptions that escape the functions are modelled by the
  `PyError` type; results carry an explicit `raised` constructor.
- `time.time()` is modelled as an ambient natural number parameter `now`.
- The application callback is modelled by recording the sequence of emitted
  events: `notified msgType msgData` for each callback invocation and
  `slept n` for each `time.sleep(n)` in the polling loop.
- The json.dumps/json.loads pair used by OAuth2Token serialization is an
  external collaborator; it is modelled at the structured-record level as a
  key/value list (a Python dict), with dict access raising KeyError when a
  key is missing.
-/

namespace GDataOauth2

/-- MessageTypes enum of OAuth2DeviceClient. -/
inductive MessageTypes
  | MSG_VERIFICATION_REQUIRED
  | MSG_CLIENT_WAITING
  | MSG_OAUTH_SUCCESS
  | MSG_OAUTH_FAILED
deriving DecidableEq, Repr

/-- GDataOAuthError enum of OAuth2DeviceClient. -/
inductive GDataOAuthError
  | ERR_UNKNOWN
  | ERR_NETWORK
  | ERR_PROTOCOL
  | ERR_CREDENTIALS
  | ERR_AUTH_FAILED
deriving DecidableEq, Repr

/-- OAuth2Token: fields in the order they are assigned in the constructor.
`accessToken` is optional (default None), `expiration` defaults to 0. -/
structure OAuth2Token where
  refreshToken : String
  accessToken : Option String
  tokenType : String
  expiration : Nat
deriving DecidableEq, Repr

/-- Python exceptions that can escape the client functions. -/
inductive PyError
  | jsonDecodeError
  | keyError (key : String)
  | indexError
deriving DecidableEq, Repr

/-- The msgData payloads passed to the application callback. -/
inductive MsgData
  | failed (error_code : GDataOAuthError) (error_string : String)
  | verification (user_code : String) (verification_url : String) (expires_in : Nat)
  | empty
  | success (token : OAuth2Token)
deriving DecidableEq, Repr

/-- Observable events of a run: callback invocations and interval sleeps. -/
inductive Event
  | slept (seconds : Nat)
  | notified (msgType : MessageTypes) (msgData : MsgData)
deriving DecidableEq, Repr

/-- The JSON object fields the client reads from response bodies; a `none`
field models an absent key (dict access raises KeyError). -/
structure JsonBody where
  error : Option String := none
  error_description : Option String := none
  access_token : Option String := none
  refresh_token : Option String := none
  token_type : Option String := none
  expires_in : Option Nat := none
  user_code : Option String := none
  verification_url : Option String := none
  device_code : Option String := none
  interval : Option Nat := none
deriving DecidableEq, Repr

/-- Result of one HTTP exchange: a transport failure (pycurl.error with the
curl error string) or a response with status code and parsed body
(`none` body: json.loads fails on the body text). -/
inductive HttpResult
  | transportError (errstr : String)
  | response (code : Nat) (body : Option JsonBody)
deriving DecidableEq, Repr

/-- The messages notified during a list of events, in order. -/
def notifMsgs (evts : List Event) : List MessageTypes :=
  evts.filterMap fun e =>
    match e with
    | .notified t _ => some t
    | .slept _ => none

/-- Result of one iteration of the while loop in startPolling. -/
inductive PollStepResult
  | raise (e : PyError) (events : List Event)
  | stop (events : List Event)
  | cont (newInterval : Nat) (events : List Event)
deriving DecidableEq, Repr

/-- One iteration of the while loop of OAuth2DeviceClient.startPolling
(lines 206 to 257): sleep the current interval, perform the poll request,
then classify the response. `now` models time.time(). -/
def pollStep (now : Nat) (interval : Nat) (r : HttpResult) : PollStepResult :=
  match r with
  | .transportError s =>
      .stop [.slept interval, .notified .MSG_OAUTH_FAILED (.failed .ERR_NETWORK s)]
  | .response _ none => .raise .jsonDecodeError [.slept interval]
  | .response code (some body) =>
    if code = 200 then
      match body.expires_in with
      | none => .raise (.keyError "expires_in") [.slept interval]
      | some ei =>
        match body.refresh_token with
        | none => .raise (.keyError "refresh_token") [.slept interval]
        | some rt =>
          match body.token_type with
          | none => .raise (.keyError "token_type") [.slept interval]
          | some tt =>
            match body.access_token with
            | none => .raise (.keyError "access_token") [.slept interval]
            | some at' =>
              .stop [.slept interval,
                     .notified .MSG_OAUTH_SUCCESS (.success ⟨rt, some at', tt, now + ei⟩)]
    else if code = 400 then
      match body.error with
      | none => .raise (.keyError "error") [.slept interval]
      | some err =>
        if err = "authorization_pending" then
          .cont interval [.slept interval]
        else
          match body.error_description with
          | none => .raise (.keyError "error_description") [.slept interval]
          | some desc =>
              .stop [.slept interval,
                     .notified .MSG_OAUTH_FAILED (.failed .ERR_PROTOCOL (err ++ ": " ++ desc))]
    else if code = 403 then
      match body.error with
      | none => .raise (.keyError "error") [.slept interval]
      | some err =>
          .stop [.slept interval,
                 .notified .MSG_OAUTH_FAILED
                   (.failed .ERR_AUTH_FAILED (err ++ ": User cancelled authorization"))]
    else if code = 429 then
      .cont (interval + 2) [.slept interval]
    else
      match body.error with
      | none => .raise (.keyError "error") [.slept interval]
      | some err =>
        match body.error_description with
        | none => .raise (.keyError "error_description") [.slept interval]
        | some desc =>
            .stop [.slept interval,
                   .notified .MSG_OAUTH_FAILED (.failed .ERR_UNKNOWN (err ++ ": " ++ desc))]

/-- Outcome of running the polling loop against a list of responses:
`terminated` when the loop exits (keepPolling set to False or a transport
error returns), `raised` when a Python exception escapes, `ranOut` when the
supplied response list is exhausted while the loop would keep polling. -/
inductive LoopOutcome
  | terminated (finalInterval : Nat) (events : List Event)
  | raised (e : PyError) (events : List Event)
  | ranOut (interval : Nat) (events : List Event)
deriving DecidableEq, Repr

/-- Prefix the event trace of a loop outcome. -/
def LoopOutcome.prepend (evts : List Event) : LoopOutcome → LoopOutcome
  | .terminated i e => .terminated i (evts ++ e)
  | .raised x e => .raised x (evts ++ e)
  | .ranOut i e => .ranOut i (evts ++ e)

/-- Event trace of a loop outcome. -/
def LoopOutcome.events : LoopOutcome → List Event
  | .terminated _ e => e
  | .raised _ e => e
  | .ranOut _ e => e

/-- The while loop of startPolling, consuming one response per iteration. -/
def startPollingLoop (now : Nat) (interval : Nat) : List HttpResult → LoopOutcome
  | [] => .ranOut interval []
  | r :: rest =>
    match pollStep now interval r with
    | .raise e evts => .raised e evts
    | .stop evts => .terminated interval evts
    | .cont i evts => (startPollingLoop now i rest).prepend evts

/-- OAuth2DeviceClient.startPolling: notify MSG_CLIENT_WAITING once, then
run the polling loop. -/
def startPolling (now : Nat) (interval : Nat) (rs : List HttpResult) : LoopOutcome :=
  (startPollingLoop now interval rs).prepend [.notified .MSG_CLIENT_WAITING .empty]

/-- The scope string built at the top of requestAuthorization:
`scopeString = self.scopeList[0]` (IndexError on an empty list), then
`scopeString += " " + self.scopeList[i]` for each later element. -/
def scopeStringOf : List String → Except PyError String
  | [] => .error .indexError
  | h :: t => .ok (t.foldl (fun acc s => acc ++ " " ++ s) h)

/-- Result of OAuth2DeviceClient.requestAuthorization: `raised` when a
Python exception escapes (with `networkCalled` recording whether the curl
request had been performed), `done` when the function returns after
emitting notifications, `polls` when a 200 response captures the interval
and device code and hands off to startPolling. -/
inductive AuthResult
  | raised (e : PyError) (events : List Event) (networkCalled : Bool)
  | done (events : List Event)
  | polls (interval : Nat) (deviceCode : String) (events : List Event)
deriving DecidableEq, Repr

/-- OAuth2DeviceClient.requestAuthorization (lines 147 to 196): build the
scope string (IndexError on empty scopeList, before any network call),
perform the request, classify by status. Dict keys are read in evaluation
order: for 200 the msgData literal reads user_code, verification_url,
expires_in, then interval and device_code are stored, the callback fires,
and polling starts; 400 and 401 and the default branch read error. -/
def requestAuthorization (scopeList : List String) (r : HttpResult) : AuthResult :=
  match scopeStringOf scopeList with
  | .error e => .raised e [] false
  | .ok _scopeString =>
    match r with
    | .transportError s =>
        .done [.notified .MSG_OAUTH_FAILED (.failed .ERR_NETWORK s)]
    | .response _ none => .raised .jsonDecodeError [] true
    | .response code (some body) =>
      if code = 200 then
        match body.user_code with
        | none => .raised (.keyError "user_code") [] true
        | some uc =>
          match body.verification_url with
          | none => .raised (.keyError "verification_url") [] true
          | some vu =>
            match body.expires_in with
            | none => .raised (.keyError "expires_in") [] true
            | some ei =>
              match body.interval with
              | none => .raised (.keyError "interval") [] true
              | some iv =>
                match body.device_code with
                | none => .raised (.keyError "device_code") [] true
                | some dc =>
                    .polls iv dc
                      [.notified .MSG_VERIFICATION_REQUIRED (.verification uc vu ei)]
      else if code = 400 then
        match body.error with
        | none => .raised (.keyError "error") [] true
        | some err => .done [.notified .MSG_OAUTH_FAILED (.failed .ERR_PROTOCOL err)]
      else if code = 401 then
        match body.error with
        | none => .raised (.keyError "error") [] true
        | some err => .done [.notified .MSG_OAUTH_FAILED (.failed .ERR_CREDENTIALS err)]
      else
        match body.error with
        | none => .raised (.keyError "error") [] true
        | some err => .done [.notified .MSG_OAUTH_FAILED (.failed .ERR_UNKNOWN err)]

/-- Result of OAuth2DeviceClient.refreshToken: the token after the call
(refreshToken mutates the supplied token in place) and the emitted
events; `raised` carries the token state at the moment the exception
escapes. -/
inductive RefreshResult
  | raised (e : PyError) (token : OAuth2Token) (events : List Event)
  | done (token : OAuth2Token) (events : List Event)
deriving DecidableEq, Repr

/-- OAuth2DeviceClient.refreshToken (lines 260 to 302). At 200 the code
computes `expiration = now + expires_in` first, then assigns
token.accessToken, token.expiration, token.tokenType in that order, so a
missing token_type key leaves accessToken and expiration already
mutated. -/
def refreshToken (now : Nat) (token : OAuth2Token) (r : HttpResult) : RefreshResult :=
  match r with
  | .transportError s =>
      .done token [.notified .MSG_OAUTH_FAILED (.failed .ERR_NETWORK s)]
  | .response _ none => .raised .jsonDecodeError token []
  | .response code (some body) =>
    if code = 200 then
      match body.expires_in with
      | none => .raised (.keyError "expires_in") token []
      | some ei =>
        match body.access_token with
        | none => .raised (.keyError "access_token") token []
        | some at' =>
          let token1 : OAuth2Token :=
            { token with accessToken := some at', expiration := now + ei }
          match body.token_type with
          | none => .raised (.keyError "token_type") token1 []
          | some tt =>
            let token2 : OAuth2Token := { token1 with tokenType := tt }
            .done token2 [.notified .MSG_OAUTH_SUCCESS (.success token2)]
    else if code = 401 then
      match body.error with
      | none => .raised (.keyError "error") token []
      | some err =>
          .done token [.notified .MSG_OAUTH_FAILED (.failed .ERR_CREDENTIALS err)]
    else if code = 400 then
      match body.error with
      | none => .raised (.keyError "error") token []
      | some err =>
        match body.error_description with
        | none => .raised (.keyError "error_description") token []
        | some desc =>
            .done token
              [.notified .MSG_OAUTH_FAILED (.failed .ERR_PROTOCOL (err ++ ": " ++ desc))]
    else
      match body.error with
      | none => .raised (.keyError "error") token []
      | some err =>
        match body.error_description with
        | none => .raised (.keyError "error_description") token []
        | some desc =>
            .done token
              [.notified .MSG_OAUTH_FAILED (.failed .ERR_UNKNOWN (err ++ ": " ++ desc))]

/-- Result of a whole authorization session (requestAuthorization plus, on
a 200, the polling phase): `completed` when every function returned
normally, `raisedExc` when a Python exception escaped, `incomplete` when
the supplied poll response list ran out while the loop would continue. -/
inductive SessionResult
  | completed (events : List Event)
  | raisedExc (e : PyError) (events : List Event)
  | incomplete (events : List Event)
deriving DecidableEq, Repr

/-- A full authorization session: requestAuthorization on `authResp`,
then, if it hands off to polling, startPolling on `pollResps`. -/
def sessionRun (now : Nat) (scopeList : List String) (authResp : HttpResult)
    (pollResps : List HttpResult) : SessionResult :=
  match requestAuthorization scopeList authResp with
  | .raised e evts _ => .raisedExc e evts
  | .done evts => .completed evts
  | .polls interval _dc evts =>
    match startPolling now interval pollResps with
    | .terminated _ evts2 => .completed (evts ++ evts2)
    | .raised e evts2 => .raisedExc e (evts ++ evts2)
    | .ranOut _ evts2 => .incomplete (evts ++ evts2)

/-- Dict access on a string-valued Python dict, raising KeyError when the
key is absent. -/
def dictLookup (d : List (String × String)) (k : String) : Except PyError String :=
  match d.find? (fun p => p.1 == k) with
  | some p => .ok p.2
  | none => .error (.keyError k)

/-- OAuth2Token.serializeToken (lines 317 to 320): the persisted record
holds exactly the refreshToken and token_type keys. The json.dumps step is
modelled at the structured-record level (dict as key/value list). -/
def OAuth2Token.serializeToken (token : OAuth2Token) : List (String × String) :=
  [("refreshToken", token.refreshToken), ("token_type", token.tokenType)]

/-- OAuth2Token.deserializeToken (lines 322 to 324): read the refreshToken
and token_type keys (KeyError when absent) and build
OAuth2Token(refreshToken, token_type), so accessToken = None and
expiration = 0. The json.loads step is modelled at the structured-record
level. -/
def OAuth2Token.deserializeToken (d : List (String × String)) : Except PyError OAuth2Token :=
  match dictLookup d "refreshToken" with
  | .error e => .error e
  | .ok rt =>
    match dictLookup d "token_type" with
    | .error e => .error e
    | .ok tt => .ok (OAuth2Token.mk rt none tt 0)

/-- Spec-side definition: list elements joined by single spaces in list
order. -/
def tailJoin : List String → String
  | [] => ""
  | s :: rest => " " ++ s ++ tailJoin rest

/-- Spec-side definition: the elements of the list joined by single spaces
in list order. -/
def joinSpaces : List String → String
  | [] => ""
  | s :: rest => s ++ tailJoin rest

/-- A message is terminal when it reports success or failure. -/
def isTerminalMsg : MessageTypes → Bool
  | .MSG_OAUTH_SUCCESS => true
  | .MSG_OAUTH_FAILED => true
  | _ => false

/-- Ordering property of a notification trace: MSG_VERIFICATION_REQUIRED
at most once and before every MSG_CLIENT_WAITING, every MSG_CLIENT_WAITING
before every terminal message, and exactly one terminal message. -/
def SeqOrdered (msgs : List MessageTypes) : Prop :=
  msgs.count .MSG_VERIFICATION_REQUIRED ≤ 1 ∧
  (∀ i j : Fin msgs.length, msgs.get i = .MSG_VERIFICATION_REQUIRED →
      msgs.get j = .MSG_CLIENT_WAITING → i.val < j.val) ∧
  (∀ i j : Fin msgs.length, msgs.get i = .MSG_CLIENT_WAITING →
      isTerminalMsg (msgs.get j) = true → i.val < j.val) ∧
  msgs.countP isTerminalMsg = 1

/-! Helper lemmas. -/

lemma notifMsgs_append (a b : List Event) :
    notifMsgs (a ++ b) = notifMsgs a ++ notifMsgs b := by
  simp [notifMsgs]

lemma LoopOutcome.events_prepend (evts : List Event) (o : LoopOutcome) :
    (o.prepend evts).events = evts ++ o.events := by
  cases o <;> rfl

lemma foldl_append_eq_tailJoin (t : List String) :
    ∀ h : String, t.foldl (fun acc s => acc ++ " " ++ s) h = h ++ tailJoin t := by
  induction t with
  | nil => intro h; simp [tailJoin, String.append_empty]
  | cons a t ih =>
      intro h
      simp only [List.foldl_cons, tailJoin]
      rw [ih]
      simp [String.append_assoc]

/-- Every poll-loop iteration either raises with only the sleep recorded,
continues with only the sleep recorded, or stops with exactly one success
or failure notification after the sleep. -/
lemma pollStep_shape (now interval : Nat) (r : HttpResult) :
    (∃ e, pollStep now interval r = .raise e [.slept interval]) ∨
    (∃ i, pollStep now interval r = .cont i [.slept interval]) ∨
    (∃ d, pollStep now interval r =
        .stop [.slept interval, .notified .MSG_OAUTH_SUCCESS d]) ∨
    (∃ d, pollStep now interval r =
        .stop [.slept interval, .notified .MSG_OAUTH_FAILED d]) := by
  cases r with
  | transportError s => exact Or.inr (Or.inr (Or.inr ⟨_, rfl⟩))
  | response code body =>
    cases body with
    | none => exact Or.inl ⟨_, rfl⟩
    | some b =>
      unfold pollStep
      repeat' split
      all_goals first
        | exact Or.inl ⟨_, rfl⟩
        | exact Or.inr (Or.inl ⟨_, rfl⟩)
        | exact Or.inr (Or.inr (Or.inl ⟨_, rfl⟩))
        | exact Or.inr (Or.inr (Or.inr ⟨_, rfl⟩))

/-- A polling loop that terminates emitted exactly one notification, a
success or a failure. -/
lemma startPollingLoop_terminated_notifs :
    ∀ (rs : List HttpResult) (now interval fi : Nat) (evts : List Event),
      startPollingLoop now interval rs = .terminated fi evts →
      notifMsgs evts = [.MSG_OAUTH_SUCCESS] ∨ notifMsgs evts = [.MSG_OAUTH_FAILED] := by
  intro rs
  induction rs with
  | nil =>
      intro now interval fi evts h
      exact absurd h (by simp [startPollingLoop])
  | cons r rest ih =>
      intro now interval fi evts h
      unfold startPollingLoop at h
      rcases pollStep_shape now interval r with ⟨e, hp⟩ | ⟨i, hp⟩ | ⟨d, hp⟩ | ⟨d, hp⟩ <;>
        simp only [hp] at h
      · exact absurd h (by simp)
      · cases hL : startPollingLoop now i rest <;>
          rw [hL] at h <;> simp [LoopOutcome.prepend] at h
        case terminated i' ev' =>
          obtain ⟨_, hev⟩ := h
          subst hev
          have := ih now i i' ev' hL
          simpa [notifMsgs] using this
      · injection h with h1 h2
        subst h2
        left
        simp [notifMsgs]
      · injection h with h1 h2
        subst h2
        right
        simp [notifMsgs]

/-- The polling loop itself never notifies MSG_CLIENT_WAITING. -/
lemma startPollingLoop_no_waiting :
    ∀ (rs : List HttpResult) (now interval : Nat),
      (notifMsgs (startPollingLoop now interval rs).events).count
        MessageTypes.MSG_CLIENT_WAITING = 0 := by
  intro rs
  induction rs with
  | nil => intro now interval; simp [startPollingLoop, LoopOutcome.events, notifMsgs]
  | cons r rest ih =>
      intro now interval
      unfold startPollingLoop
      rcases pollStep_shape now interval r with ⟨e, hp⟩ | ⟨i, hp⟩ | ⟨d, hp⟩ | ⟨d, hp⟩ <;>
        simp only [hp]
      · simp [LoopOutcome.events, notifMsgs]
      · simp only [LoopOutcome.events_prepend, notifMsgs_append, List.count_append]
        have := ih now i
        simp [notifMsgs] at this ⊢
        exact this
      · simp [LoopOutcome.events, notifMsgs]
      · simp [LoopOutcome.events, notifMsgs]

/-- A requestAuthorization call that returns normally without polling
notified exactly one failure. -/
lemma requestAuthorization_done_notifs (sl : List String) (r : HttpResult)
    (evts : List Event) (h : requestAuthorization sl r = .done evts) :
    notifMsgs evts = [.MSG_OAUTH_FAILED] := by
  unfold requestAuthorization at h
  repeat' split at h
  all_goals first
    | (injection h with h1; subst h1; simp [notifMsgs])
    | simp_all [notifMsgs]

/-- A requestAuthorization call that hands off to polling notified exactly
one MSG_VERIFICATION_REQUIRED. -/
lemma requestAuthorization_polls_notifs (sl : List String) (r : HttpResult)
    (iv : Nat) (dc : String) (evts : List Event)
    (h : requestAuthorization sl r = .polls iv dc evts) :
    notifMsgs evts = [.MSG_VERIFICATION_REQUIRED] := by
  unfold requestAuthorization at h
  repeat' split at h
  all_goals first
    | (injection h with h1 h2 h3; subst h3; simp [notifMsgs])
    | simp_all [notifMsgs]

/-! Claim theorems. -/

/-- Claim C3: for every Token with a non-empty refreshToken, a refresh call
answered 200 with access_token, token_type and expires_in updates exactly
accessToken (to access_token), tokenType (to token_type) and expiration
(to now + expires_in), leaves refreshToken unchanged, and emits Success
with that same Token. -/
theorem claim_C3_refresh_success (now : Nat) (t : OAuth2Token)
    (_hrt : t.refreshToken ≠ "") (at' tt : String) (ei : Nat) :
    refreshToken now t
        (.response 200 (some { access_token := some at', token_type := some tt,
                               expires_in := some ei })) =
      .done { t with accessToken := some at', tokenType := tt, expiration := now + ei }
        [.notified .MSG_OAUTH_SUCCESS
          (.success { t with accessToken := some at', tokenType := tt,
                             expiration := now + ei })] := rfl

/-- Witness for claim C3 at a concrete token and response. -/
theorem claim_C3_witness :
    refreshToken 7 ⟨"abc", none, "Bearer", 0⟩
        (.response 200 (some { access_token := some "xyz", token_type := some "Bearer",
                               expires_in := some 3600 })) =
      .done ⟨"abc", some "xyz", "Bearer", 3607⟩
        [.notified .MSG_OAUTH_SUCCESS (.success ⟨"abc", some "xyz", "Bearer", 3607⟩)] :=
  claim_C3_refresh_success 7 ⟨"abc", none, "Bearer", 0⟩ (by decide) "xyz" "Bearer" 3600

/-- Claim C4: a transport-layer failure on any of the three operations
emits exactly one Failed outcome with kind ERR_NETWORK, terminates the
operation (for the poll loop: no further responses are consumed), and for
refreshToken leaves every field of the supplied Token unchanged. -/
theorem claim_C4_transport_failures :
    (∀ (s0 : String) (ss : List String) (e : String),
        requestAuthorization (s0 :: ss) (.transportError e) =
          .done [.notified .MSG_OAUTH_FAILED (.failed .ERR_NETWORK e)]) ∧
    (∀ (now interval : Nat) (e : String) (rest : List HttpResult),
        startPollingLoop now interval (.transportError e :: rest) =
          .terminated interval
            [.slept interval, .notified .MSG_OAUTH_FAILED (.failed .ERR_NETWORK e)]) ∧
    (∀ (now : Nat) (t : OAuth2Token) (e : String),
        refreshToken now t (.transportError e) =
          .done t [.notified .MSG_OAUTH_FAILED (.failed .ERR_NETWORK e)]) :=
  ⟨fun _ _ _ => rfl, fun _ _ _ _ => rfl, fun _ _ _ => rfl⟩

/-- Claim C5: a poll response of 403 emits exactly one Failed outcome with
kind ERR_AUTH_FAILED and message error plus ": User cancelled
authorization", and the loop stops without consuming any further
response. -/
theorem claim_C5_403_terminal (now interval : Nat) (err : String)
    (ed a rt tt : Option String) (ei : Option Nat) (uc vu dc : Option String)
    (iv : Option Nat) (rest : List HttpResult) :
    startPollingLoop now interval
        (.response 403 (some ⟨some err, ed, a, rt, tt, ei, uc, vu, dc, iv⟩) :: rest) =
      .terminated interval
        [.slept interval,
         .notified .MSG_OAUTH_FAILED
           (.failed .ERR_AUTH_FAILED (err ++ ": User cancelled authorization"))] := rfl

/-- Claim C6: deserializing a serialized Token succeeds and preserves
refreshToken and tokenType while producing accessToken = none and
expiration = 0. -/
theorem claim_C6_serialize_roundtrip (t : OAuth2Token) :
    OAuth2Token.deserializeToken (OAuth2Token.serializeToken t) =
      .ok ⟨t.refreshToken, none, t.tokenType, 0⟩ := rfl

/-- Claim C9: a response body that is not well-formed JSON makes each of
the three operations raise an uncaught JSONDecodeError, for every HTTP
status, with no Failed outcome notified (only the sleep is recorded in the
poll loop) and the Token untouched. -/
theorem claim_C9_malformed_json_raises :
    (∀ (s0 : String) (ss : List String) (code : Nat),
        requestAuthorization (s0 :: ss) (.response code none) =
          .raised .jsonDecodeError [] true) ∧
    (∀ (now interval code : Nat) (rest : List HttpResult),
        startPollingLoop now interval (.response code none :: rest) =
          .raised .jsonDecodeError [.slept interval]) ∧
    (∀ (now : Nat) (t : OAuth2Token) (code : Nat),
        refreshToken now t (.response code none) = .raised .jsonDecodeError t []) :=
  ⟨fun _ _ _ => rfl, fun _ _ _ _ => rfl, fun _ _ _ => rfl⟩

/-- Claim C10: with an empty scopeList, requestAuthorization raises
IndexError with no network call and no notification, uniformly in the
transport result; with a non-empty scopeList the transmitted scope string
is the elements joined by single spaces in list order. -/
theorem claim_C10_scope_string :
    (∀ r : HttpResult, requestAuthorization [] r = .raised .indexError [] false) ∧
    (∀ (s0 : String) (ss : List String),
        scopeStringOf (s0 :: ss) = .ok (joinSpaces (s0 :: ss))) := by
  constructor
  · intro r; rfl
  · intro s0 ss
    simp [scopeStringOf, joinSpaces, foldl_append_eq_tailJoin]

/-- Claim C1 counterexample: at a concrete 400 authorization_pending poll
response the loop iteration emits no notification at all (its event list
holds only the sleep), so no MSG_CLIENT_WAITING is emitted for that
response; and a session whose loop sees two authorization_pending
responses notifies MSG_CLIENT_WAITING only once (at polling start), not
once per pending response as the claim states. -/
theorem claim_C1_counterexample :
    pollStep 0 10 (.response 400 (some { error := some "authorization_pending" })) =
      .cont 10 [.slept 10] ∧
    notifMsgs [.slept 10] = [] ∧
    (notifMsgs (startPolling 0 10
        [.response 400 (some { error := some "authorization_pending" }),
         .response 400 (some { error := some "authorization_pending" }),
         .response 200 (some { access_token := some "a", refresh_token := some "r",
                               token_type := some "B", expires_in := some 1 })]).events).count
      MessageTypes.MSG_CLIENT_WAITING = 1 :=
  ⟨rfl, rfl, by decide⟩

/-- Claim C1 amended: a 400 authorization_pending poll response is never
classified as Failed and emits no notification of its own — the loop
iteration records only its sleep of the current interval and polling
continues with the interval unchanged; MSG_CLIENT_WAITING is emitted
exactly once per polling session, before the first poll. -/
theorem claim_C1_amended :
    (∀ (now interval : Nat) (ed a rt tt : Option String) (ei : Option Nat)
        (uc vu dc : Option String) (iv : Option Nat),
        pollStep now interval
            (.response 400
              (some ⟨some "authorization_pending", ed, a, rt, tt, ei, uc, vu, dc, iv⟩)) =
          .cont interval [.slept interval]) ∧
    (∀ (now interval : Nat) (ed a rt tt : Option String) (ei : Option Nat)
        (uc vu dc : Option String) (iv : Option Nat) (rest : List HttpResult),
        startPollingLoop now interval
            (.response 400
              (some ⟨some "authorization_pending", ed, a, rt, tt, ei, uc, vu, dc, iv⟩) :: rest) =
          (startPollingLoop now interval rest).prepend [.slept interval]) ∧
    (∀ (now interval : Nat) (rs : List HttpResult),
        (notifMsgs (startPolling now interval rs).events).count
          MessageTypes.MSG_CLIENT_WAITING = 1) := by
  refine ⟨fun _ _ _ _ _ _ _ _ _ _ _ => rfl, fun _ _ _ _ _ _ _ _ _ _ _ _ => rfl, ?_⟩
  intro now interval rs
  simp only [startPolling, LoopOutcome.events_prepend, notifMsgs_append,
    List.count_append, startPollingLoop_no_waiting]
  simp [notifMsgs]

/-- Claim C2: N consecutive 429 poll responses followed by a 200 end the
loop with final interval initialInterval + 2N; each 429 iteration records
only its sleep (no Failed or Waiting notification) and polling continues,
and the only notification of the whole run is the success. -/
theorem claim_C2_429_backoff (now interval N : Nat) (rt tt at' : String) (ei : Nat) :
    startPollingLoop now interval
        (List.replicate N (.response 429 (some {})) ++
          [.response 200 (some { access_token := some at', refresh_token := some rt,
                                 token_type := some tt, expires_in := some ei })]) =
      .terminated (interval + 2 * N)
        (((List.range N).map fun k => Event.slept (interval + 2 * k)) ++
          [Event.slept (interval + 2 * N),
           Event.notified .MSG_OAUTH_SUCCESS (.success ⟨rt, some at', tt, now + ei⟩)]) := by
  induction N generalizing interval with
  | zero => simp [startPollingLoop, pollStep]
  | succ n ih =>
      rw [List.replicate_succ, List.cons_append]
      show (startPollingLoop now (interval + 2) _).prepend [.slept interval] = _
      rw [ih]
      have h1 : ∀ k : Nat, interval + 2 + 2 * k = interval + 2 * (k + 1) := fun k => by ring
      simp only [LoopOutcome.prepend, h1]
      rw [List.range_succ_eq_map]
      simp [List.map_map, Function.comp, Nat.succ_eq_add_one]

/-- Claim C8: requestAuthorization emits exactly one notification per
status with no retry — 200 emits VerificationRequired with the user_code,
verification_url and expires_in from the body and hands off to polling
with the interval and device_code from the body; 400 emits Failed
ERR_PROTOCOL with the error field; 401 emits Failed ERR_CREDENTIALS with
the error field; every other status emits Failed ERR_UNKNOWN. -/
theorem claim_C8_auth_classification :
    (∀ (s0 : String) (ss : List String) (uc vu : String) (ei : Nat) (dc : String)
        (iv : Nat) (e ed a rt tt : Option String),
        requestAuthorization (s0 :: ss)
            (.response 200 (some ⟨e, ed, a, rt, tt, some ei, some uc, some vu,
                                  some dc, some iv⟩)) =
          .polls iv dc [.notified .MSG_VERIFICATION_REQUIRED (.verification uc vu ei)]) ∧
    (∀ (s0 : String) (ss : List String) (err : String) (ed a rt tt : Option String)
        (ei : Option Nat) (uc vu dc : Option String) (iv : Option Nat),
        requestAuthorization (s0 :: ss)
            (.response 400 (some ⟨some err, ed, a, rt, tt, ei, uc, vu, dc, iv⟩)) =
          .done [.notified .MSG_OAUTH_FAILED (.failed .ERR_PROTOCOL err)]) ∧
    (∀ (s0 : String) (ss : List String) (err : String) (ed a rt tt : Option String)
        (ei : Option Nat) (uc vu dc : Option String) (iv : Option Nat),
        requestAuthorization (s0 :: ss)
            (.response 401 (some ⟨some err, ed, a, rt, tt, ei, uc, vu, dc, iv⟩)) =
          .done [.notified .MSG_OAUTH_FAILED (.failed .ERR_CREDENTIALS err)]) ∧
    (∀ code : Nat, code ≠ 200 → code ≠ 400 → code ≠ 401 →
        ∀ (s0 : String) (ss : List String) (err : String) (ed a rt tt : Option String)
          (ei : Option Nat) (uc vu dc : Option String) (iv : Option Nat),
        requestAuthorization (s0 :: ss)
            (.response code (some ⟨some err, ed, a, rt, tt, ei, uc, vu, dc, iv⟩)) =
          .done [.notified .MSG_OAUTH_FAILED (.failed .ERR_UNKNOWN err)]) := by
  refine ⟨?_, ?_, ?_, ?_⟩
  · intros; rfl
  · intros; rfl
  · intros; rfl
  intro code h200 h400 h401 s0 ss err ed a rt tt ei uc vu dc iv
  simp [requestAuthorization, scopeStringOf, h200, h400, h401]

/-- Witness for claim C8 at status 500. -/
theorem claim_C8_witness :
    requestAuthorization ["scope"] (.response 500 (some { error := some "boom" })) =
      .done [.notified .MSG_OAUTH_FAILED (.failed .ERR_UNKNOWN "boom")] :=
  claim_C8_auth_classification.2.2.2 500 (by decide) (by decide) (by decide)
    "scope" [] "boom" none none none none none none none none none

/-- Claim C7: the notifications of a session that completes are strictly
ordered — MSG_VERIFICATION_REQUIRED at most once and before every
MSG_CLIENT_WAITING, every MSG_CLIENT_WAITING before the terminal message,
and exactly one terminal (success or failure) message. -/
theorem claim_C7_session_ordering (now : Nat) (sl : List String) (ar : HttpResult)
    (prs : List HttpResult) (evts : List Event)
    (h : sessionRun now sl ar prs = .completed evts) :
    SeqOrdered (notifMsgs evts) := by
  unfold sessionRun at h
  cases hA : requestAuthorization sl ar with
  | raised e ev nc => simp only [hA] at h; simp at h
  | done ev =>
      simp only [hA] at h
      injection h with h1
      subst h1
      rw [requestAuthorization_done_notifs sl ar ev hA]
      unfold SeqOrdered
      decide
  | polls iv dc ev =>
      simp only [hA] at h
      unfold startPolling at h
      cases hL : startPollingLoop now iv prs with
      | terminated fi ev2 =>
          simp only [hL, LoopOutcome.prepend] at h
          injection h with h1
          subst h1
          rw [notifMsgs_append, requestAuthorization_polls_notifs sl ar iv dc ev hA,
              notifMsgs_append]
          rcases startPollingLoop_terminated_notifs prs now iv fi ev2 hL with hS | hF
          · rw [hS]
            unfold SeqOrdered
            simp [notifMsgs, isTerminalMsg]
            decide
          · rw [hF]
            unfold SeqOrdered
            simp [notifMsgs, isTerminalMsg]
            decide
      | raised e2 ev2 =>
          simp only [hL, LoopOutcome.prepend] at h
          simp at h
      | ranOut i2 ev2 =>
          simp only [hL, LoopOutcome.prepend] at h
          simp at h

/-- Witness for claim C7: a concrete completed session. -/
theorem claim_C7_witness :
    SeqOrdered (notifMsgs [Event.notified .MSG_OAUTH_FAILED (.failed .ERR_PROTOCOL "x")]) :=
  claim_C7_session_ordering 0 ["s"] (.response 400 (some { error := some "x" })) []
    [Event.notified .MSG_OAUTH_FAILED (.failed .ERR_PROTOCOL "x")] rfl

end GDataOauth2
